import Mathlib

/-!
Verification of the USB-drop campaign manager frontend against its
natural-language specification.  The definitions below are shallow
embeddings of the JavaScript/Vue source files:

* src/campaign-frontend/src/views/DriveDetail.vue
* src/campaign-frontend/src/views/Drives.vue
* src/campaign-frontend/src/views/Alerts.vue
* src/campaign-frontend/src/views/MapView.vue
* src/campaign-frontend/src/views/CampaignDetail.vue
* src/campaign-frontend/src/views/Campaigns.vue (several concatenated views,
  including the Dashboard and Reports components)
* the axios API client and the vue-router module (unnamed source parts)

JavaScript numbers are modelled as rationals (no floating point arithmetic
is performed by the modelled code beyond division and rounding), nullable
fields as Option, and JS truthiness is made explicit in the helper
functions below.  The backend trigger-ingestion pipeline is not part of the
repository sources; it is modelled from the specification where a claim
needs it (see the doc comments there).
-/

namespace USBDrop

/-- JS truthiness of a nullable number field: null/undefined and 0 are
falsy, every other number is truthy.  (NaN, which is also falsy in JS, has
no counterpart in the rational model.) -/
def truthyNum : Option ℚ → Bool
  | none => false
  | some q => q != 0

/-- JS truthiness of a nullable string field: null/undefined and the empty
string are falsy. -/
def truthyStr : Option String → Bool
  | none => false
  | some s => s != ""

/-- How a nullable string renders inside a Vue template interpolation:
null renders as the empty string. -/
def strOrEmpty : Option String → String
  | none => ""
  | some s => s

/-- JSON values occurring in the request bodies built by the frontend. -/
inductive Json where
  | num : ℚ → Json
  | str : String → Json
  | null : Json
  deriving DecidableEq, Repr

/-- An HTTP request as assembled by the axios helpers in the API service
module: method, path, query params and JSON body. -/
structure ApiRequest where
  method : String
  path : String
  params : List (String × Json)
  body : List (String × Json)
  deriving DecidableEq, Repr

/-! ## Drive lifecycle (spec section 4.1) -/

/-- The five drive lifecycle states; the same five appear as keys of the
statusColors tables in Drives.vue and DriveDetail.vue. -/
inductive DriveStatus where
  | created | prepared | deployed | triggered | recovered
  deriving DecidableEq, Repr, Fintype

/-- The edges of the section 4.1 state machine:
created → prepared → deployed → triggered, and any state → recovered. -/
def specEdge : DriveStatus → DriveStatus → Bool
  | .created, .prepared => true
  | .prepared, .deployed => true
  | .deployed, .triggered => true
  | _, .recovered => true
  | _, _ => false

/-- Position of a status along the forward chain of the state machine. -/
def statusRank : DriveStatus → Nat
  | .created => 0
  | .prepared => 1
  | .deployed => 2
  | .triggered => 3
  | .recovered => 4

/-! ## UI actions offered per drive (Drives.vue and DriveDetail.vue) -/

/-- The per-drive actions rendered by the two drive views. -/
inductive DriveAction where
  | prepare | download | deploy | view
  deriving DecidableEq, Repr, Fintype

/-- Actions column of the drives table (Drives.vue, template):
Prepare shown iff status is created; Download and the Deploy link shown
iff status is prepared; View always shown. -/
def drivesListActions (s : DriveStatus) : List DriveAction :=
  (if s = .created then [DriveAction.prepare] else []) ++
  (if s = .prepared then [DriveAction.download, DriveAction.deploy] else []) ++
  [DriveAction.view]

/-- DriveDetail.vue onMounted: the deploy modal opens when the route query
carries action=deploy, with no check of the drive status. -/
def showDeployModalOnMount (queryActionDeploy : Bool) : Bool :=
  queryActionDeploy

/-- Actions offered by DriveDetail.vue as a function of the drive status
and of whether the page was opened with the query param action=deploy:
the three buttons are gated by v-if on the status, and the deploy modal
(whose form submits deployDrive) additionally opens on mount whenever the
query param is present. -/
def driveDetailOffers (s : DriveStatus) (queryActionDeploy : Bool) :
    List DriveAction :=
  (if s = .created then [DriveAction.prepare] else []) ++
  (if s = .prepared then [DriveAction.download, DriveAction.deploy] else []) ++
  (if showDeployModalOnMount queryActionDeploy then [DriveAction.deploy] else [])

/-- The status an action asks the backend to move the drive into (prepare
posts /drives/id/prepare, deploy posts /drives/id/deploy); download and
view request no transition. -/
def actionTarget : DriveAction → Option DriveStatus
  | .prepare => some .prepared
  | .deploy => some .deployed
  | _ => none

/-! ## Deployment form and deployDrive (DriveDetail.vue) -/

/-- The deployment ref of DriveDetail.vue (lines 16-21): exactly the four
fields latitude, longitude, location_description, deployed_by; the two
coordinates are numbers-or-null (the inputs use v-model.number). -/
structure DeploymentForm where
  latitude : Option ℚ
  longitude : Option ℚ
  location_description : String
  deployed_by : String
  deriving DecidableEq, Repr

/-- JSON encoding of a nullable number. -/
def optNumJson : Option ℚ → Json
  | none => Json.null
  | some q => Json.num q

/-- The JSON body sent for a deployment: the deployment object serialized
field by field. -/
def deployBody (f : DeploymentForm) : List (String × Json) :=
  [("latitude", optNumJson f.latitude),
   ("longitude", optNumJson f.longitude),
   ("location_description", Json.str f.location_description),
   ("deployed_by", Json.str f.deployed_by)]

/-- deployDrive (DriveDetail.vue lines 92-106): when either coordinate is
falsy (null or 0 under JS truthiness) it alerts the operator and returns
without any API call; otherwise it sends drivesApi.deploy, i.e. a POST to
/drives/{id}/deploy with the deployment object as body. -/
def deployDrive (driveId : String) (f : DeploymentForm) : Option ApiRequest :=
  if truthyNum f.latitude && truthyNum f.longitude then
    some { method := "POST"
           path := "/drives/" ++ driveId ++ "/deploy"
           params := []
           body := deployBody f }
  else
    none

/-! ## Campaign editing (CampaignDetail.vue, Campaigns.vue) -/

/-- The four options of the status select in the CampaignDetail edit modal
(template lines 228-231), in document order. -/
def campaignStatusOptions : List String :=
  ["draft", "active", "completed", "archived"]

/-- The editForm ref of CampaignDetail.vue, populated in loadCampaign with
name, client_name, description and status of the loaded campaign. -/
structure CampaignEditForm where
  name : String
  client_name : String
  description : String
  status : String
  deriving DecidableEq, Repr

/-- updateCampaign (CampaignDetail.vue lines 60-64): campaignsApi.update,
i.e. PUT /campaigns/{id} with the edit form serialized unchanged. -/
def updateCampaign (campaignId : String) (f : CampaignEditForm) : ApiRequest :=
  { method := "PUT"
    path := "/campaigns/" ++ campaignId
    params := []
    body := [("name", Json.str f.name),
             ("client_name", Json.str f.client_name),
             ("description", Json.str f.description),
             ("status", Json.str f.status)] }

/-- The newCampaign ref of the Campaigns list view: name, client_name and
description only. -/
structure NewCampaignForm where
  name : String
  client_name : String
  description : String
  deriving DecidableEq, Repr

/-- createCampaign (Campaigns.vue): campaignsApi.create, i.e. POST
/campaigns with the creation form; the body carries no status field. -/
def createCampaignRequest (f : NewCampaignForm) : ApiRequest :=
  { method := "POST"
    path := "/campaigns"
    params := []
    body := [("name", Json.str f.name),
             ("client_name", Json.str f.client_name),
             ("description", Json.str f.description)] }

/-- campaignsApi.delete: DELETE /campaigns/{id}, with no body. -/
def deleteCampaignRequest (campaignId : String) : ApiRequest :=
  { method := "DELETE"
    path := "/campaigns/" ++ campaignId
    params := []
    body := [] }

/-! ## Alerts read paths (API service module and Alerts.vue) -/

/-- alertsApi.recent in the API service module: hours defaults to 24 when
the caller passes no argument, and the request is a GET to /alerts/recent
with hours as the single query param. -/
def alertsRecentRequest (hours : Option ℕ) : ApiRequest :=
  { method := "GET"
    path := "/alerts/recent"
    params := [("hours", Json.num ((hours.getD 24 : ℕ) : ℚ))]
    body := [] }

/-- alertsApi.map: GET /alerts/map with an optional campaign_id param (the
MapView only adds the param when a campaign filter is set). -/
def alertsMapRequest (campaignId : Option String) : ApiRequest :=
  { method := "GET"
    path := "/alerts/map"
    params := match campaignId with
              | some c => [("campaign_id", Json.str c)]
              | none => []
    body := [] }

/-- The hourOptions table of Alerts.vue (values only, in document order). -/
def hourOptions : List ℕ := [1, 6, 24, 72, 168, 720]

/-- Initial value of filters.hours in Alerts.vue. -/
def alertsFiltersInitialHours : ℕ := 24

/-! ## Alert rendering (Alerts.vue) and map markers (MapView.vue) -/

/-- The fields of an alert record that the Alerts list rendering reads. -/
structure AlertRecord where
  drive_code : String
  token_type : String
  source_ip : Option String
  geo_city : Option String
  geo_country : Option String
  user_agent : Option String
  deriving DecidableEq, Repr

/-- The IP line of an alert row: alert.source_ip || 'Unknown IP'. -/
def alertIpText (a : AlertRecord) : String :=
  if truthyStr a.source_ip then strOrEmpty a.source_ip else "Unknown IP"

/-- The location line of an alert row: rendered only when geo_city or
geo_country is truthy (v-if), with a comma separator exactly when both are
truthy; none means the line is omitted. -/
def alertLocationLine (a : AlertRecord) : Option String :=
  if truthyStr a.geo_city || truthyStr a.geo_country then
    some (strOrEmpty a.geo_city ++
          (if truthyStr a.geo_city && truthyStr a.geo_country then ", " else "") ++
          strOrEmpty a.geo_country)
  else
    none

/-- The rendered pieces of one alert row that the claim concerns; the
rendering is a total function of the record, so a record with null geo
fields still produces a row. -/
structure AlertRow where
  ipText : String
  locationLine : Option String
  deriving DecidableEq, Repr

/-- Rendering of one alert in the Alerts list. -/
def renderAlertRow (a : AlertRecord) : AlertRow :=
  { ipText := alertIpText a, locationLine := alertLocationLine a }

/-- The fields of a trigger record that updateMarkers in MapView.vue reads. -/
structure TriggerMapRecord where
  drive_code : String
  geo_latitude : Option ℚ
  geo_longitude : Option ℚ
  source_ip : Option String
  deriving DecidableEq, Repr

/-- Whether updateMarkers draws a marker for a trigger record: the guard is
t.geo_latitude && t.geo_longitude (JS truthiness). -/
def triggerMarkerDrawn (t : TriggerMapRecord) : Bool :=
  truthyNum t.geo_latitude && truthyNum t.geo_longitude

/-- The trigger markers placed on the map for a list of trigger records
(the trigger branch of updateMarkers, active for filter type triggers or
both): one marker at the geo coordinates of each record passing the
truthiness guard, the others skipped. -/
def triggerMarkers (ts : List TriggerMapRecord) : List (ℚ × ℚ) :=
  ts.filterMap fun t =>
    if truthyNum t.geo_latitude && truthyNum t.geo_longitude then
      some (t.geo_latitude.getD 0, t.geo_longitude.getD 0)
    else
      none

/-! ## Axios response interceptor (API service module) -/

/-- The two tokens held in localStorage. -/
structure TokenStore where
  accessToken : Option String
  refreshToken : Option String
  deriving DecidableEq, Repr

/-- The slice of a failed axios response the interceptor inspects: the
HTTP status and the _retry flag on the original request config. -/
structure FailedResponse where
  status : ℕ
  retried : Bool
  deriving DecidableEq, Repr

/-- Outcome of the POST /api/auth/refresh call. -/
inductive RefreshOutcome where
  | ok : String → String → RefreshOutcome
  | failed
  deriving DecidableEq, Repr

/-- What the interceptor does with the error. -/
inductive InterceptorAction where
  | replay : String → InterceptorAction
  | redirectLogin
  | reject
  deriving DecidableEq, Repr

/-- Result of running the interceptor: the action taken, the token store
afterwards, and the _retry flag on the original request afterwards. -/
structure InterceptorResult where
  action : InterceptorAction
  store : TokenStore
  requestRetried : Bool
  deriving DecidableEq, Repr

/-- The axios response interceptor (API service module lines 19-51).
On a 401 whose request is not yet marked _retry it marks it, and when a
refresh token is stored it calls the refresh endpoint: on success it stores
both new tokens and replays the original request with the new bearer
header; on failure it removes both tokens and navigates to /login.  All
other cases fall through to Promise.reject. -/
def responseInterceptor (e : FailedResponse) (store : TokenStore)
    (refresh : RefreshOutcome) : InterceptorResult :=
  if e.status == 401 && !e.retried then
    match store.refreshToken with
    | some _ =>
      match refresh with
      | .ok newAccess newRefresh =>
        { action := .replay ("Bearer " ++ newAccess)
          store := { accessToken := some newAccess, refreshToken := some newRefresh }
          requestRetried := true }
      | .failed =>
        { action := .redirectLogin
          store := { accessToken := none, refreshToken := none }
          requestRetried := true }
    | none =>
      { action := .reject, store := store, requestRetried := true }
  else
    { action := .reject, store := store, requestRetried := e.retried }

/-! ## Router navigation guard (router module) -/

/-- The slice of a navigation target the guard inspects: its path and its
meta.public flag (true only for the /login route in the routes table). -/
structure RouteTarget where
  path : String
  metaPublic : Bool
  deriving DecidableEq, Repr

/-- Resolution of a navigation by the guard. -/
inductive NavDecision where
  | proceed
  | redirect : String → NavDecision
  deriving DecidableEq, Repr

/-- isAuthenticated in the auth store: double negation of the access token
ref, i.e. JS truthiness of the stored token. -/
def isAuthenticated (accessToken : Option String) : Bool :=
  truthyStr accessToken

/-- router.beforeEach (router module lines 134-145): redirect to /login
when the target is not public and the session is unauthenticated; redirect
to / when the target is /login and the session is authenticated; proceed
otherwise. -/
def beforeEach (target : RouteTarget) (accessToken : Option String) : NavDecision :=
  if !target.metaPublic && !isAuthenticated accessToken then
    .redirect "/login"
  else if target.path == "/login" && isAuthenticated accessToken then
    .redirect "/"
  else
    .proceed

/-! ## Success rate (CampaignDetail.vue and the Reports component) -/

/-- JS Math.round on a rational: floor of q + 1/2 (Math.round rounds half
toward positive infinity). -/
def jsRound (q : ℚ) : ℤ :=
  ⌊q + 1 / 2⌋

/-- The success-rate expression, identical in the CampaignDetail stats card
and the Reports summary card:
deployed ? Math.round(triggered / deployed * 100) : 0.
The deployed operand is nullable (stats may be null or lack the field);
the ternary tests its JS truthiness, so the division is evaluated only in
the truthy branch. -/
def successRate (deployed : Option ℚ) (triggered : ℚ) : ℤ :=
  if truthyNum deployed then jsRound (triggered / deployed.getD 0 * 100) else 0

/-! ## Trigger ingestion pipeline (spec sections 4.1, 4.2)

The backend is not part of this repository's sources (only the frontend and
the REST documentation are under src/), so the pipeline is modelled from
the specification. -/

/-- First value bound to a key in an association list, decided by
DecidableEq on the keys. -/
def lookupD {α β : Type} [DecidableEq α] : List (α × β) → α → Option β
  | [], _ => none
  | (k, v) :: rest, a => if a = k then some v else lookupD rest a

/-- Overwrite of the value bound to a key in an association list. -/
def setD {α β : Type} [DecidableEq α] : List (α × β) → α → β → List (α × β)
  | [], a, b => [(a, b)]
  | (k, v) :: rest, a, b =>
      if a = k then (a, b) :: rest else (k, v) :: setD rest a b

/-- Increment of the counter bound to a key (0 when absent). -/
def bumpD {α : Type} [DecidableEq α] (l : List (α × ℕ)) (a : α) : List (α × ℕ) :=
  setD l a ((lookupD l a).getD 0 + 1)

/-- Modelled from the spec: the inbound webhook payload of section 6
(external token identifier, source address, user agent, metadata), with
the timestamp and payload hash that enter the dedup fingerprint of section
4.2 step 3, and the outcome of the shared-secret authentication of step 1
(performed external to the core). -/
structure WebhookPayload where
  token : String
  src_ip : String
  user_agent : String
  timestamp : ℕ
  payloadHash : ℕ
  authenticated : Bool
  deriving DecidableEq, Repr

/-- Modelled from the spec: the dedup fingerprint of section 4.2 step 3,
computed from (token identifier, source address, timestamp, payload hash). -/
structure Fingerprint where
  token : String
  src : String
  ts : ℕ
  hash : ℕ
  deriving DecidableEq, Repr

/-- The fingerprint of a payload. -/
def fingerprintOf (p : WebhookPayload) : Fingerprint :=
  { token := p.token, src := p.src_ip, ts := p.timestamp, hash := p.payloadHash }

/-- Modelled from the spec: a persisted TriggerEvent of section 3 — owning
token, source address, user agent, timestamp, and nullable geo coordinates
(null when enrichment failed). -/
structure TriggerEvent where
  token : String
  src : String
  user_agent : String
  ts : ℕ
  geo : Option (ℚ × ℚ)
  deriving DecidableEq, Repr

/-- Modelled from the spec: the result of ingest (sections 4.2 and 7) —
Unauthorized, UnknownToken, or accepted carrying the transitioned flag of
recordTrigger. -/
inductive IngestOutcome where
  | unauthorized
  | unknownToken
  | accepted : Bool → IngestOutcome
  deriving DecidableEq, Repr

/-- Modelled from the spec: the state the pipeline reads and writes — the
Token Registry (external identifier to owning drive, section 4.3), the
drive statuses owned by the Drive Lifecycle Engine, the append-only
TriggerEvent log, the per-token trigger counters, and the recent dedup
fingerprints with the result each one returned (section 4.2 step 3 returns
the prior result on a duplicate). -/
structure PipelineState where
  registry : List (String × String)
  driveStatus : List (String × DriveStatus)
  events : List TriggerEvent
  counts : List (String × ℕ)
  dedup : List (Fingerprint × IngestOutcome)
  deriving DecidableEq, Repr

/-- Modelled from the spec: the Drive Lifecycle Engine's recordTrigger
(section 4.1) — fires the deployed → triggered transition exactly on a
drive currently in deployed and reports whether it transitioned; for any
other status the event is still accepted (recovery stops deployment, not
detection) and only the counts change. -/
def recordTrigger (driveId : String) (statuses : List (String × DriveStatus)) :
    Bool × List (String × DriveStatus) :=
  match lookupD statuses driveId with
  | some DriveStatus.deployed => (true, setD statuses driveId DriveStatus.triggered)
  | _ => (false, statuses)

/-- Modelled from the spec: ingest (section 4.2), with the Geo Enricher of
section 4.4 passed as a best-effort lookup function (none models a failed
or unavailable enrichment).  Steps in order: authenticate (reject
Unauthorized, no side effects), resolve via the registry (reject
UnknownToken), deduplicate on the fingerprint (a hit returns the prior
result with no new event and no recount), enrich, then append the event,
bump the token counter, advance the lifecycle engine, and remember the
fingerprint with its result. -/
def ingest (enrich : String → Option (ℚ × ℚ)) (p : WebhookPayload)
    (st : PipelineState) : IngestOutcome × PipelineState :=
  if !p.authenticated then
    (IngestOutcome.unauthorized, st)
  else
    match lookupD st.registry p.token with
    | none => (IngestOutcome.unknownToken, st)
    | some driveId =>
      match lookupD st.dedup (fingerprintOf p) with
      | some prior => (prior, st)
      | none =>
        let ev : TriggerEvent :=
          { token := p.token, src := p.src_ip, user_agent := p.user_agent,
            ts := p.timestamp, geo := enrich p.src_ip }
        let tr := recordTrigger driveId st.driveStatus
        let outcome := IngestOutcome.accepted tr.1
        (outcome,
         { registry := st.registry
           driveStatus := tr.2
           events := st.events ++ [ev]
           counts := bumpD st.counts p.token
           dedup := (fingerprintOf p, outcome) :: st.dedup })

/-! ## Theorems -/

/-- C1, counterexample: the claim says the deploy POST is attempted if and
only if latitude and longitude are non-null, but deployDrive tests JS
truthiness, so a latitude of 0 (a valid, non-null coordinate on the
equator) is rejected with no API call. -/
theorem C1_counterexample :
    (DeploymentForm.mk (some 0) (some 1) "equator site" "op").latitude ≠ none ∧
    (DeploymentForm.mk (some 0) (some 1) "equator site" "op").longitude ≠ none ∧
    deployDrive "d1" (DeploymentForm.mk (some 0) (some 1) "equator site" "op") = none := by
  refine ⟨by simp, by simp, ?_⟩
  rfl

/-- C1 (amended): deployDrive sends the POST to /drives/{id}/deploy exactly
when both deployment.latitude and deployment.longitude are truthy, i.e.
non-null and non-zero; otherwise it makes no API call and surfaces an
alert to the operator. -/
theorem C1_deploy_guard (driveId : String) (f : DeploymentForm) :
    (deployDrive driveId f).isSome =
      (truthyNum f.latitude && truthyNum f.longitude) := by
  unfold deployDrive
  split <;> simp_all

/-- C2, counterexample: the claim says the deploy action is offered only
when the drive status is prepared, but DriveDetail.vue opens the deploy
modal whenever the page is mounted with the query param action=deploy,
without checking the status; a drive still in created is then offered the
deploy form, whose submission would attempt a created → deployed move that
is not an edge of the section 4.1 machine. -/
theorem C2_counterexample :
    DriveAction.deploy ∈ driveDetailOffers DriveStatus.created true ∧
    DriveStatus.created ≠ DriveStatus.prepared ∧
    specEdge DriveStatus.created DriveStatus.deployed = false := by
  decide

/-- C2 (amended): in the drives list every action is gated exactly as the
claim states (prepare iff created; download and deploy iff prepared), and
in the drive detail view the three buttons are gated the same way, but the
deploy form is additionally offered, for any status, when the page is
opened with query action=deploy (a link the UI itself renders only for
prepared drives); apart from that query path, every UI-initiated
transition follows an edge of the section 4.1 machine and strictly
advances the status, so no button can regress a drive. -/
theorem C2_ui_actions :
    (∀ s : DriveStatus,
      (DriveAction.prepare ∈ drivesListActions s ↔ s = DriveStatus.created) ∧
      (DriveAction.download ∈ drivesListActions s ↔ s = DriveStatus.prepared) ∧
      (DriveAction.deploy ∈ drivesListActions s ↔ s = DriveStatus.prepared)) ∧
    (∀ (s : DriveStatus) (q : Bool),
      (DriveAction.prepare ∈ driveDetailOffers s q ↔ s = DriveStatus.created) ∧
      (DriveAction.download ∈ driveDetailOffers s q ↔ s = DriveStatus.prepared) ∧
      (DriveAction.deploy ∈ driveDetailOffers s q ↔
        (s = DriveStatus.prepared ∨ q = true))) ∧
    (∀ (s t : DriveStatus) (a : DriveAction),
      a ∈ drivesListActions s → actionTarget a = some t →
        specEdge s t = true ∧ statusRank s < statusRank t) ∧
    (∀ (s t : DriveStatus) (a : DriveAction),
      a ∈ driveDetailOffers s false → actionTarget a = some t →
        specEdge s t = true ∧ statusRank s < statusRank t) := by
  decide

/-- C5: every accepted deployment request is a POST to
/drives/{id}/deploy whose body holds exactly the fields latitude,
longitude, location_description and deployed_by, serialized from the form
(whose coordinates are numbers-or-null thanks to v-model.number). -/
theorem C5_deploy_request (driveId : String) (f : DeploymentForm)
    (r : ApiRequest) (h : deployDrive driveId f = some r) :
    r.method = "POST" ∧
    r.path = "/drives/" ++ driveId ++ "/deploy" ∧
    r.body.map Prod.fst =
      ["latitude", "longitude", "location_description", "deployed_by"] ∧
    r.body = deployBody f := by
  unfold deployDrive at h
  split at h
  · cases h
    exact ⟨rfl, rfl, rfl, rfl⟩
  · cases h

/-- Witness for C5 at a concrete form. -/
theorem C5_deploy_request_witness :
    deployDrive "d1" (DeploymentForm.mk (some 1) (some 2) "lobby" "op") =
      some (ApiRequest.mk "POST" "/drives/d1/deploy" []
              (deployBody (DeploymentForm.mk (some 1) (some 2) "lobby" "op"))) ∧
    (ApiRequest.mk "POST" "/drives/d1/deploy" []
        (deployBody (DeploymentForm.mk (some 1) (some 2) "lobby" "op"))).method =
      "POST" :=
  ⟨rfl, (C5_deploy_request "d1" (DeploymentForm.mk (some 1) (some 2) "lobby" "op")
      (ApiRequest.mk "POST" "/drives/d1/deploy" []
        (deployBody (DeploymentForm.mk (some 1) (some 2) "lobby" "op"))) rfl).1⟩

/-- C7: the recent-alerts read path is a GET to /alerts/recent with a
single hours param, equal to the caller's integer argument and defaulting
to 24 when none is given; the Alerts view offers exactly the hour values
1, 6, 24, 72, 168 and 720 with initial value 24; the map read path is a
GET to /alerts/map. -/
theorem C7_alerts_read_paths (h : ℕ) (c : Option String) :
    alertsRecentRequest none = alertsRecentRequest (some 24) ∧
    (alertsRecentRequest (some h)).method = "GET" ∧
    (alertsRecentRequest (some h)).path = "/alerts/recent" ∧
    (alertsRecentRequest (some h)).params = [("hours", Json.num (h : ℚ))] ∧
    hourOptions = [1, 6, 24, 72, 168, 720] ∧
    alertsFiltersInitialHours = 24 ∧
    alertsFiltersInitialHours ∈ hourOptions ∧
    (alertsMapRequest c).method = "GET" ∧
    (alertsMapRequest c).path = "/alerts/map" := by
  exact ⟨rfl, rfl, rfl, rfl, rfl, rfl, by decide, rfl, rfl⟩

/-- C3: re-ingesting the same webhook payload is a fixpoint — the second
delivery returns exactly the first delivery's result and leaves the state
untouched (no second TriggerEvent, no counter bump, no second lifecycle
transition), and a single ingestion appends at most one TriggerEvent, so
two deliveries of one payload yield exactly one event and at most one
deployed → triggered transition. -/
theorem C3_ingest_idempotent (enrich : String → Option (ℚ × ℚ))
    (p : WebhookPayload) (st : PipelineState) :
    ingest enrich p (ingest enrich p st).2 = ingest enrich p st ∧
    (ingest enrich p st).2.events.length ≤ st.events.length + 1 := by
  cases hauth : p.authenticated with
  | false =>
    constructor
    · simp [ingest, hauth]
    · simp [ingest, hauth]
  | true =>
    cases hreg : lookupD st.registry p.token with
    | none =>
      constructor
      · simp [ingest, hauth, hreg]
      · simp [ingest, hauth, hreg]
    | some driveId =>
      cases hded : lookupD st.dedup (fingerprintOf p) with
      | some prior =>
        constructor
        · simp [ingest, hauth, hreg, hded]
        · simp [ingest, hauth, hreg, hded]
      | none =>
        constructor
        · simp [ingest, hauth, hreg, hded, lookupD]
        · simp [ingest, hauth, hreg, hded]

/-- C4, counterexample: the claim says the map view draws a trigger marker
exactly when both geo coordinates are non-null, but updateMarkers tests JS
truthiness, so a trigger geolocated at latitude 0 (non-null) gets no
marker. -/
theorem C4_counterexample :
    (TriggerMapRecord.mk "USB-001" (some 0) (some 5) (some "1.2.3.4")).geo_latitude ≠ none ∧
    (TriggerMapRecord.mk "USB-001" (some 0) (some 5) (some "1.2.3.4")).geo_longitude ≠ none ∧
    triggerMarkerDrawn (TriggerMapRecord.mk "USB-001" (some 0) (some 5) (some "1.2.3.4")) = false := by
  refine ⟨by simp, by simp, ?_⟩
  rfl

/-- C4 (amended): records with null geo fields still render — the alerts
row is a total function of the record, showing Unknown IP when source_ip
is null and omitting the location line when both geo names are null — and
the map draws a trigger marker exactly when both geo_latitude and
geo_longitude are truthy (non-null and non-zero), skipping the record
otherwise; in particular every null-coordinate record is skipped. -/
theorem C4_degraded_rendering (a : AlertRecord) (t : TriggerMapRecord) :
    (a.source_ip = none → (renderAlertRow a).ipText = "Unknown IP") ∧
    (a.geo_city = none → a.geo_country = none →
      (renderAlertRow a).locationLine = none) ∧
    (triggerMarkerDrawn t = true ↔
      (truthyNum t.geo_latitude = true ∧ truthyNum t.geo_longitude = true)) ∧
    (t.geo_latitude = none → triggerMarkerDrawn t = false) ∧
    (triggerMarkers [t] =
      if triggerMarkerDrawn t then [(t.geo_latitude.getD 0, t.geo_longitude.getD 0)]
      else []) := by
  refine ⟨?_, ?_, ?_, ?_, ?_⟩
  · intro h
    simp [renderAlertRow, alertIpText, truthyStr, h]
  · intro h1 h2
    simp [renderAlertRow, alertLocationLine, truthyStr, h1, h2]
  · simp [triggerMarkerDrawn]
  · intro h
    simp [triggerMarkerDrawn, truthyNum, h]
  · cases h1 : truthyNum t.geo_latitude with
    | false => simp [triggerMarkers, triggerMarkerDrawn, h1]
    | true =>
      cases h2 : truthyNum t.geo_longitude with
      | false => simp [triggerMarkers, triggerMarkerDrawn, h1, h2]
      | true => simp [triggerMarkers, triggerMarkerDrawn, h1, h2]

/-- Witness for C4 at a record with all-null geo data. -/
theorem C4_degraded_rendering_witness :
    (renderAlertRow (AlertRecord.mk "USB-001" "dns" none none none none)).ipText =
      "Unknown IP" ∧
    (renderAlertRow (AlertRecord.mk "USB-001" "dns" none none none none)).locationLine =
      none ∧
    triggerMarkerDrawn (TriggerMapRecord.mk "USB-001" none none none) = false := by
  have h := C4_degraded_rendering (AlertRecord.mk "USB-001" "dns" none none none none)
    (TriggerMapRecord.mk "USB-001" none none none)
  exact ⟨h.1 rfl, h.2.1 rfl rfl, h.2.2.2.1 rfl⟩

/-- C6: the campaign status is operator-set — the edit modal offers
exactly the four values draft, active, completed and archived, and
updateCampaign issues PUT /campaigns/{id} carrying the operator's chosen
status unchanged; the only other campaign-writing requests the frontend
builds are campaign creation (whose body has no status field) and campaign
deletion (no body at all). -/
theorem C6_campaign_status (campaignId : String) (f : CampaignEditForm)
    (g : NewCampaignForm) :
    campaignStatusOptions = ["draft", "active", "completed", "archived"] ∧
    (updateCampaign campaignId f).method = "PUT" ∧
    (updateCampaign campaignId f).path = "/campaigns/" ++ campaignId ∧
    lookupD (updateCampaign campaignId f).body "status" = some (Json.str f.status) ∧
    (createCampaignRequest g).body.map Prod.fst = ["name", "client_name", "description"] ∧
    (deleteCampaignRequest campaignId).body = [] := by
  refine ⟨rfl, rfl, rfl, ?_, rfl, rfl⟩
  simp [updateCampaign, lookupD]

/-- C8: on a 401 response whose request is not yet marked retried, the
interceptor marks it and, when a refresh token is stored, either replays
the original request once with the freshly obtained bearer token (storing
both new tokens) or, when the refresh call fails, removes both stored
tokens and navigates to /login; a 401 with no stored refresh token, an
already-retried request, or any non-401 error is propagated as a
rejection, so the replay can happen at most once. -/
theorem C8_token_refresh (st : TokenStore) (rf : RefreshOutcome) (s : ℕ) (b : Bool) :
    (∀ a r rt, s = 401 → b = false → st.refreshToken = some rt →
        rf = RefreshOutcome.ok a r →
        responseInterceptor ⟨s, b⟩ st rf =
          ⟨.replay ("Bearer " ++ a), ⟨some a, some r⟩, true⟩) ∧
    (∀ rt, s = 401 → b = false → st.refreshToken = some rt →
        rf = RefreshOutcome.failed →
        responseInterceptor ⟨s, b⟩ st rf = ⟨.redirectLogin, ⟨none, none⟩, true⟩) ∧
    (s = 401 → b = false → st.refreshToken = none →
        responseInterceptor ⟨s, b⟩ st rf = ⟨.reject, st, true⟩) ∧
    (s ≠ 401 ∨ b = true →
        responseInterceptor ⟨s, b⟩ st rf = ⟨.reject, st, b⟩) ∧
    (responseInterceptor ⟨401, true⟩ st rf).action = .reject := by
  refine ⟨?_, ?_, ?_, ?_, ?_⟩
  · intro a r rt hs hb hrt hrf
    subst hs; subst hb; subst hrf
    simp [responseInterceptor, hrt]
  · intro rt hs hb hrt hrf
    subst hs; subst hb; subst hrf
    simp [responseInterceptor, hrt]
  · intro hs hb hrt
    subst hs; subst hb
    simp [responseInterceptor, hrt]
  · intro h
    rcases h with h | h
    · have hbeq : (s == 401) = false := by simpa using h
      simp [responseInterceptor, hbeq]
    · subst h
      simp [responseInterceptor]
  · simp [responseInterceptor]

/-- Witness for C8 at concrete stores and outcomes. -/
theorem C8_token_refresh_witness :
    responseInterceptor ⟨401, false⟩ ⟨some "tokA", some "tokR"⟩
        (RefreshOutcome.ok "newA" "newR") =
      ⟨.replay ("Bearer " ++ "newA"), ⟨some "newA", some "newR"⟩, true⟩ ∧
    responseInterceptor ⟨401, false⟩ ⟨some "tokA", some "tokR"⟩ RefreshOutcome.failed =
      ⟨.redirectLogin, ⟨none, none⟩, true⟩ ∧
    responseInterceptor ⟨401, false⟩ ⟨some "tokA", none⟩ RefreshOutcome.failed =
      ⟨.reject, ⟨some "tokA", none⟩, true⟩ ∧
    responseInterceptor ⟨500, false⟩ ⟨some "tokA", some "tokR"⟩ RefreshOutcome.failed =
      ⟨.reject, ⟨some "tokA", some "tokR"⟩, false⟩ ∧
    (responseInterceptor ⟨401, true⟩ ⟨some "tokA", some "tokR"⟩
        RefreshOutcome.failed).action = .reject := by
  refine ⟨?_, ?_, ?_, ?_, ?_⟩
  · exact (C8_token_refresh ⟨some "tokA", some "tokR"⟩
      (RefreshOutcome.ok "newA" "newR") 401 false).1 "newA" "newR" "tokR" rfl rfl rfl rfl
  · exact (C8_token_refresh ⟨some "tokA", some "tokR"⟩
      RefreshOutcome.failed 401 false).2.1 "tokR" rfl rfl rfl rfl
  · exact (C8_token_refresh ⟨some "tokA", none⟩
      RefreshOutcome.failed 401 false).2.2.1 rfl rfl rfl
  · exact (C8_token_refresh ⟨some "tokA", some "tokR"⟩
      RefreshOutcome.failed 500 false).2.2.2.1 (Or.inl (by decide))
  · exact (C8_token_refresh ⟨some "tokA", some "tokR"⟩
      RefreshOutcome.failed 401 true).2.2.2.2

/-- C9: the global navigation guard redirects to /login when the target is
not public and the session holds no (truthy) access token, redirects to /
when the target is /login and a token is present, and proceeds in every
other case; consequently a navigation that proceeds always has a public
target or an authenticated session. -/
theorem C9_nav_guard (target : RouteTarget) (tok : Option String) :
    (target.metaPublic = false → isAuthenticated tok = false →
        beforeEach target tok = NavDecision.redirect "/login") ∧
    (target.path = "/login" → isAuthenticated tok = true →
        beforeEach target tok = NavDecision.redirect "/") ∧
    ((target.metaPublic = true ∨ isAuthenticated tok = true) →
      (target.path ≠ "/login" ∨ isAuthenticated tok = false) →
        beforeEach target tok = NavDecision.proceed) ∧
    (beforeEach target tok = NavDecision.proceed →
        (target.metaPublic = true ∨ isAuthenticated tok = true)) := by
  refine ⟨?_, ?_, ?_, ?_⟩
  · intro hm ha
    simp [beforeEach, hm, ha]
  · intro hp ha
    simp [beforeEach, hp, ha]
  · intro h1 h2
    cases hm : target.metaPublic <;> cases ha : isAuthenticated tok <;>
      simp_all [beforeEach]
  · intro h
    cases hm : target.metaPublic with
    | true => exact Or.inl rfl
    | false =>
      cases ha : isAuthenticated tok with
      | true => exact Or.inr rfl
      | false =>
        exfalso
        simp [beforeEach, hm, ha] at h

/-- Witness for C9 at concrete routes and tokens. -/
theorem C9_nav_guard_witness :
    beforeEach ⟨"/drives", false⟩ none = NavDecision.redirect "/login" ∧
    beforeEach ⟨"/login", true⟩ (some "tok") = NavDecision.redirect "/" ∧
    beforeEach ⟨"/drives", false⟩ (some "tok") = NavDecision.proceed := by
  refine ⟨?_, ?_, ?_⟩
  · exact (C9_nav_guard ⟨"/drives", false⟩ none).1 rfl rfl
  · exact (C9_nav_guard ⟨"/login", true⟩ (some "tok")).2.1 rfl (by decide)
  · exact (C9_nav_guard ⟨"/drives", false⟩ (some "tok")).2.2.1
      (Or.inr (by decide)) (Or.inl (by decide))

/-- C10: the success-rate card shows round(100 * triggered / deployed)
when deployed is a non-zero number and 0 when deployed is null, undefined
or zero; the zero and null cases take the else branch of the ternary, so
the division is never evaluated there. -/
theorem C10_success_rate (t d : ℚ) (hd : d ≠ 0) :
    successRate none t = 0 ∧
    successRate (some 0) t = 0 ∧
    successRate (some d) t = jsRound (100 * t / d) := by
  refine ⟨rfl, ?_, ?_⟩
  · simp [successRate, truthyNum]
  · have hb : truthyNum (some d) = true := by simp [truthyNum, hd]
    have harg : t / d * 100 = 100 * t / d := by ring
    simp [successRate, hb, harg]

/-- Witness for C10: three triggered of six deployed shows 50 percent. -/
theorem C10_success_rate_witness :
    (6 : ℚ) ≠ 0 ∧ successRate (some 6) 3 = jsRound (100 * 3 / 6) :=
  ⟨by norm_num, (C10_success_rate 3 6 (by norm_num)).2.2⟩

end USBDrop
